import Mathlib

/-!
Verification of the indoor-positioning trilateration pipeline
(repository avibn/indoor-positioning-trilateration).

The development shallowly embeds the Python sources:
  - src/calc.py     : TrilaterationController (distance model, solver setup, scaler)
  - src/filter.py   : per-receiver 1-D Kalman filter wrappers
  - src/server.py   : message ingestion and the periodic processing loop

Python floats are modelled as real numbers; Python exceptions as Except.
-/

/-- Python exception kinds raised by the embedded code paths. -/
inductive PyError where
  | valueError
  | zeroDivisionError
deriving DecidableEq

/-- The TrilaterationController record from src/calc.py: three base-station
positions, the grid scale, three measured powers and the path-loss exponent.
The Python `__init__` only stores these fields. -/
structure TrilaterationController where
  bp_1 : ℝ × ℝ
  bp_2 : ℝ × ℝ
  bp_3 : ℝ × ℝ
  scale : ℤ
  measured_power_1 : ℝ
  measured_power_2 : ℝ
  measured_power_3 : ℝ
  path_loss_exponent : ℝ

/-- Embedding of `TrilaterationController.__init__` (src/calc.py lines 5-41).
The Python constructor contains no validation and no raise statement; it can
only succeed.  We give it an `Except` result type so that the presence or
absence of a construction-time error path is expressible: the code always
returns `.ok` with the fields stored unchanged. -/
def TrilaterationController.init (bp_1 bp_2 bp_3 : ℝ × ℝ) (scale : ℤ)
    (measured_power_1 measured_power_2 measured_power_3 path_loss_exponent : ℝ) :
    Except PyError TrilaterationController :=
  .ok ⟨bp_1, bp_2, bp_3, scale, measured_power_1, measured_power_2,
       measured_power_3, path_loss_exponent⟩

/-- The path-loss formula returned by `get_distance` (src/calc.py line 128):
`10 ** ((measured_power - rssi) / (10 * path_loss_exponent))`. -/
noncomputable def path_loss_distance (measured_power ple rssi : ℝ) : ℝ :=
  (10 : ℝ) ^ ((measured_power - rssi) / (10 * ple))

open Classical in
/-- Embedding of `TrilaterationController.get_distance` (src/calc.py lines
108-128).  The node dispatch selects the measured power, any other node number
raises ValueError; the final expression divides by `10 * path_loss_exponent`,
which in Python raises ZeroDivisionError when that product is zero. -/
noncomputable def TrilaterationController.get_distance
    (c : TrilaterationController) (rssi : ℝ) (node : ℤ) : Except PyError ℝ :=
  if node = 1 then
    if 10 * c.path_loss_exponent = 0 then .error .zeroDivisionError
    else .ok (path_loss_distance c.measured_power_1 c.path_loss_exponent rssi)
  else if node = 2 then
    if 10 * c.path_loss_exponent = 0 then .error .zeroDivisionError
    else .ok (path_loss_distance c.measured_power_2 c.path_loss_exponent rssi)
  else if node = 3 then
    if 10 * c.path_loss_exponent = 0 then .error .zeroDivisionError
    else .ok (path_loss_distance c.measured_power_3 c.path_loss_exponent rssi)
  else .error .valueError

/-- The controller instance constructed in src/server.py lines 72-80 with the
constants of src/environment.py: receivers at (0, 2.2), (3.2, 0), (3.2, 3.1),
measured powers -45, -48, -43, path-loss exponent 1.8, default grid scale 32. -/
noncomputable def locationEstimator : TrilaterationController :=
  ⟨(0, 2.2), (3.2, 0), (3.2, 3.1), 32, -45, -48, -43, 1.8⟩

/-- Claim C5: for a fixed calibration pair, the path-loss distance is strictly
decreasing in the RSSI: if rssi_a < rssi_b then distance(rssi_b) < distance(rssi_a).
Stated for any positive path-loss exponent, as configured (1.8). -/
theorem claim_C5 (measured_power ple a b : ℝ) (hple : 0 < ple) (hab : a < b) :
    path_loss_distance measured_power ple b < path_loss_distance measured_power ple a := by
  unfold path_loss_distance
  have h10 : (1 : ℝ) < 10 := by norm_num
  rw [Real.rpow_lt_rpow_left_iff h10]
  have hden : 0 < 10 * ple := by linarith
  apply div_lt_div_of_pos_right _ hden
  linarith

/-- Witness for C5 at the configured exponent 1.8 and RSSI values -70 < -60. -/
theorem claim_C5_witness :
    path_loss_distance (-45) 1.8 (-60) < path_loss_distance (-45) 1.8 (-70) :=
  claim_C5 (-45) 1.8 (-70) (-60) (by norm_num) (by norm_num)

/-- Claim C9: `get_distance` raises ValueError exactly on node numbers outside
{1, 2, 3}; on a valid node (with the configured, nonzero exponent) it returns
the path-loss distance computed from that node's measured power. -/
theorem claim_C9 (c : TrilaterationController) (hple : c.path_loss_exponent ≠ 0)
    (rssi : ℝ) (node : ℤ) :
    ((c.get_distance rssi node = .error .valueError) ↔ ¬(node = 1 ∨ node = 2 ∨ node = 3))
    ∧ (node = 1 → c.get_distance rssi node
        = .ok (path_loss_distance c.measured_power_1 c.path_loss_exponent rssi))
    ∧ (node = 2 → c.get_distance rssi node
        = .ok (path_loss_distance c.measured_power_2 c.path_loss_exponent rssi))
    ∧ (node = 3 → c.get_distance rssi node
        = .ok (path_loss_distance c.measured_power_3 c.path_loss_exponent rssi)) := by
  have h10 : ¬(10 * c.path_loss_exponent = 0) := by simp [hple]
  unfold TrilaterationController.get_distance
  by_cases h1 : node = 1
  · simp [h1, h10]
  · by_cases h2 : node = 2
    · simp [h1, h2, h10]
    · by_cases h3 : node = 3
      · simp [h1, h2, h3, h10]
      · simp [h1, h2, h3]

/-- Witness for C9 on the configured controller, rssi -50, node 2. -/
theorem claim_C9_witness :
    ((locationEstimator.get_distance (-50) 2 = .error .valueError)
        ↔ ¬((2 : ℤ) = 1 ∨ (2 : ℤ) = 2 ∨ (2 : ℤ) = 3))
    ∧ ((2 : ℤ) = 1 → locationEstimator.get_distance (-50) 2
        = .ok (path_loss_distance locationEstimator.measured_power_1
            locationEstimator.path_loss_exponent (-50)))
    ∧ ((2 : ℤ) = 2 → locationEstimator.get_distance (-50) 2
        = .ok (path_loss_distance locationEstimator.measured_power_2
            locationEstimator.path_loss_exponent (-50)))
    ∧ ((2 : ℤ) = 3 → locationEstimator.get_distance (-50) 2
        = .ok (path_loss_distance locationEstimator.measured_power_3
            locationEstimator.path_loss_exponent (-50))) :=
  claim_C9 locationEstimator (by norm_num [locationEstimator]) (-50) 2

/-- Counterexample to claim C7: the constructor accepts a non-positive
path-loss exponent (-1) and succeeds, storing the fields unchanged, instead of
failing fast. -/
theorem claim_C7_counterexample :
    TrilaterationController.init (0, 2.2) (3.2, 0) (3.2, 3.1) 32 (-45) (-48) (-43) (-1)
      = .ok ⟨(0, 2.2), (3.2, 0), (3.2, 3.1), 32, -45, -48, -43, -1⟩
    ∧ (-1 : ℝ) ≤ 0 :=
  ⟨rfl, by norm_num⟩

/-- Claim C7 as amended: construction performs no validation at all — every
argument list, including a non-positive path-loss exponent, is accepted and
stored unchanged — and a zero exponent surfaces only at distance-computation
time as a ZeroDivisionError inside `get_distance`. -/
theorem claim_C7_amended (bp_1 bp_2 bp_3 : ℝ × ℝ) (scale : ℤ) (m1 m2 m3 ple : ℝ) :
    TrilaterationController.init bp_1 bp_2 bp_3 scale m1 m2 m3 ple
      = .ok ⟨bp_1, bp_2, bp_3, scale, m1, m2, m3, ple⟩
    ∧ (∀ rssi : ℝ, (⟨bp_1, bp_2, bp_3, scale, m1, m2, m3, 0⟩ :
        TrilaterationController).get_distance rssi 1 = .error .zeroDivisionError) := by
  refine ⟨rfl, fun rssi => ?_⟩
  norm_num [TrilaterationController.get_distance]

open Classical in
/-- Truncation toward zero, the semantics of Python `int()` applied to a float. -/
noncomputable def pyint (t : ℝ) : ℤ := if 0 ≤ t then ⌊t⌋ else ⌈t⌉

/-- Maximum x coordinate of the three base stations (src/calc.py line 142). -/
def TrilaterationController.initial_x (c : TrilaterationController) : ℝ :=
  max c.bp_1.1 (max c.bp_2.1 c.bp_3.1)

/-- Maximum y coordinate of the three base stations (src/calc.py line 143). -/
def TrilaterationController.initial_y (c : TrilaterationController) : ℝ :=
  max c.bp_1.2 (max c.bp_2.2 c.bp_3.2)

/-- Embedding of `TrilaterationController.__scale_coordinates` (src/calc.py
lines 130-153): divide by the maximum base-station coordinate, multiply by the
grid scale, truncate with `int()`, then clamp each axis into [0, scale-1] via
`max(0, min(v, scale - 1))`. -/
noncomputable def TrilaterationController.scale_coordinates
    (c : TrilaterationController) (x y : ℝ) : ℤ × ℤ :=
  (max 0 (min (pyint (x / c.initial_x * (c.scale : ℝ))) (c.scale - 1)),
   max 0 (min (pyint (y / c.initial_y * (c.scale : ℝ))) (c.scale - 1)))

/-- Clamping to [0, s-1] erases the difference between truncation toward zero
and flooring: both land at 0 for negative arguments. -/
lemma clamp_pyint_eq_clamp_floor (t : ℝ) (s : ℤ) (hs : 1 ≤ s) :
    max 0 (min (pyint t) (s - 1)) = max 0 (min ⌊t⌋ (s - 1)) := by
  unfold pyint
  by_cases h : 0 ≤ t
  · simp [h]
  · have ht : t ≤ 0 := le_of_lt (lt_of_not_le h)
    have hc : (⌈t⌉ : ℤ) ≤ 0 := Int.ceil_le.mpr (by exact_mod_cast ht)
    have hf : (⌊t⌋ : ℤ) ≤ 0 := Int.floor_nonpos ht
    have hs1 : (0 : ℤ) ≤ s - 1 := by omega
    rw [if_neg h, min_eq_left (le_trans hc hs1), min_eq_left (le_trans hf hs1),
      max_eq_left hc, max_eq_left hf]

/-- The configured maximum x bound is 3.2. -/
lemma locationEstimator_initial_x : locationEstimator.initial_x = 3.2 := by
  simp only [TrilaterationController.initial_x, locationEstimator, max_self]
  exact max_eq_right (by norm_num)

/-- The configured maximum y bound is 3.1. -/
lemma locationEstimator_initial_y : locationEstimator.initial_y = 3.1 := by
  simp only [TrilaterationController.initial_y, locationEstimator]
  rw [max_eq_right (by norm_num), max_eq_right (by norm_num)]

/-- Claim C4: on each axis the scaler returns floor((value / bound) * scale)
clamped to [0, scale-1], where the bounds are the maximum base-station
coordinates, and consequently both outputs always lie in [0, scale-1].  (The
code truncates with `int()` rather than flooring, but after clamping the two
agree on every real input.) -/
theorem claim_C4 (c : TrilaterationController) (hs : 1 ≤ c.scale)
    (_hbx : c.initial_x ≠ 0) (_hby : c.initial_y ≠ 0) (x y : ℝ) :
    c.scale_coordinates x y
      = (max 0 (min ⌊x / c.initial_x * (c.scale : ℝ)⌋ (c.scale - 1)),
         max 0 (min ⌊y / c.initial_y * (c.scale : ℝ)⌋ (c.scale - 1)))
    ∧ 0 ≤ (c.scale_coordinates x y).1 ∧ (c.scale_coordinates x y).1 ≤ c.scale - 1
    ∧ 0 ≤ (c.scale_coordinates x y).2 ∧ (c.scale_coordinates x y).2 ≤ c.scale - 1 := by
  unfold TrilaterationController.scale_coordinates
  refine ⟨?_, le_max_left _ _, ?_, le_max_left _ _, ?_⟩
  · rw [clamp_pyint_eq_clamp_floor _ _ hs, clamp_pyint_eq_clamp_floor _ _ hs]
  · exact max_le (by omega) (min_le_right _ _)
  · exact max_le (by omega) (min_le_right _ _)

/-- Witness for C4 on the configured controller at the out-of-bounds metric
point (10, -5). -/
theorem claim_C4_witness :
    locationEstimator.scale_coordinates 10 (-5)
      = (max 0 (min ⌊(10 : ℝ) / locationEstimator.initial_x * ((locationEstimator.scale : ℤ) : ℝ)⌋
            (locationEstimator.scale - 1)),
         max 0 (min ⌊(-5 : ℝ) / locationEstimator.initial_y * ((locationEstimator.scale : ℤ) : ℝ)⌋
            (locationEstimator.scale - 1)))
    ∧ 0 ≤ (locationEstimator.scale_coordinates 10 (-5)).1
    ∧ (locationEstimator.scale_coordinates 10 (-5)).1 ≤ locationEstimator.scale - 1
    ∧ 0 ≤ (locationEstimator.scale_coordinates 10 (-5)).2
    ∧ (locationEstimator.scale_coordinates 10 (-5)).2 ≤ locationEstimator.scale - 1 :=
  claim_C4 locationEstimator (by norm_num [locationEstimator])
    (by rw [locationEstimator_initial_x]; norm_num)
    (by rw [locationEstimator_initial_y]; norm_num) 10 (-5)

/-- The residual tuple built inside `TrilaterationController.trilaterate`
(src/calc.py lines 89-96): for a guess (x, y, r) it returns
((x-x1)^2 + (y-y1)^2 - (d1-r)^2, ..., ...) over the three base stations. -/
def equations (c : TrilaterationController) (d1 d2 d3 : ℝ)
    (guess : ℝ × ℝ × ℝ) : ℝ × ℝ × ℝ :=
  ((guess.1 - c.bp_1.1) ^ 2 + (guess.2.1 - c.bp_1.2) ^ 2 - (d1 - guess.2.2) ^ 2,
   (guess.1 - c.bp_2.1) ^ 2 + (guess.2.1 - c.bp_2.2) ^ 2 - (d2 - guess.2.2) ^ 2,
   (guess.1 - c.bp_3.1) ^ 2 + (guess.2.1 - c.bp_3.2) ^ 2 - (d3 - guess.2.2) ^ 2)

/-- The initial guess handed to the solver (src/calc.py line 99). -/
def initial_guess : ℝ × ℝ × ℝ := (0, 0, 0)

/-- The least-squares objective: the sum of the squares of the three residual
components, which is what `scipy.optimize.least_squares` minimizes for a
residual function returning a 3-tuple. -/
def sumsq (f : ℝ × ℝ × ℝ → ℝ × ℝ × ℝ) (p : ℝ × ℝ × ℝ) : ℝ :=
  (f p).1 ^ 2 + (f p).2.1 ^ 2 + (f p).2.2 ^ 2

/-- Embedding of `TrilaterationController.trilaterate` (src/calc.py lines
69-106), with the external `scipy.optimize.least_squares` routine abstracted
as a parameter `ls` taking the residual function and the initial guess and
returning the solution vector `results.x`; the method returns the first two
components of that vector. -/
def trilaterate (ls : (ℝ × ℝ × ℝ → ℝ × ℝ × ℝ) → (ℝ × ℝ × ℝ) → ℝ × ℝ × ℝ)
    (c : TrilaterationController) (d1 d2 d3 : ℝ) : ℝ × ℝ :=
  ((ls (equations c d1 d2 d3) initial_guess).1,
   (ls (equations c d1 d2 d3) initial_guess).2.1)

/-- The spec's residual for station i, written from the spec text:
residual_i(x,y,r) = (x - x_i)^2 + (y - y_i)^2 - (d_i - r)^2.  Used only to
compare the code's residuals against the specified ones. -/
def spec_residual (xi yi di x y r : ℝ) : ℝ :=
  (x - xi) ^ 2 + (y - yi) ^ 2 - (di - r) ^ 2

/-- The spec's least-squares objective over the three unknowns (x, y, r):
the sum of squared spec residuals for the three stations. -/
def specObjective (c : TrilaterationController) (d1 d2 d3 : ℝ)
    (p : ℝ × ℝ × ℝ) : ℝ :=
  spec_residual c.bp_1.1 c.bp_1.2 d1 p.1 p.2.1 p.2.2 ^ 2
    + spec_residual c.bp_2.1 c.bp_2.2 d2 p.1 p.2.1 p.2.2 ^ 2
    + spec_residual c.bp_3.1 c.bp_3.2 d3 p.1 p.2.1 p.2.2 ^ 2

/-- The objective scored by the code's residual tuple coincides with the
spec's objective. -/
lemma sumsq_equations_eq_specObjective (c : TrilaterationController)
    (d1 d2 d3 : ℝ) (p : ℝ × ℝ × ℝ) :
    sumsq (equations c d1 d2 d3) p = specObjective c d1 d2 d3 p := by
  simp [sumsq, equations, specObjective, spec_residual]

/-- Claim C1: the solver poses the position as a nonlinear least-squares
minimization with the spec's residuals, starts from the initial guess
(0, 0, 0), and returns the (x, y) components of the minimizer: whenever the
underlying least-squares routine returns a global minimizer of the sum of
squared residuals it is handed, the point the code projects is a global
minimizer of the spec's objective, and `trilaterate` returns exactly its
first two components. -/
theorem claim_C1 (ls : (ℝ × ℝ × ℝ → ℝ × ℝ × ℝ) → (ℝ × ℝ × ℝ) → ℝ × ℝ × ℝ)
    (c : TrilaterationController) (d1 d2 d3 : ℝ)
    (hls : ∀ q, sumsq (equations c d1 d2 d3) (ls (equations c d1 d2 d3) initial_guess)
        ≤ sumsq (equations c d1 d2 d3) q) :
    initial_guess = ((0 : ℝ), (0 : ℝ), (0 : ℝ))
    ∧ (∀ q, specObjective c d1 d2 d3 (ls (equations c d1 d2 d3) initial_guess)
        ≤ specObjective c d1 d2 d3 q)
    ∧ trilaterate ls c d1 d2 d3
      = ((ls (equations c d1 d2 d3) initial_guess).1,
         (ls (equations c d1 d2 d3) initial_guess).2.1) := by
  refine ⟨rfl, fun q => ?_, rfl⟩
  rw [← sumsq_equations_eq_specObjective, ← sumsq_equations_eq_specObjective]
  exact hls q

/-- Controller fixture for the C1 witness: stations at (0,0), (1,0), (0,1). -/
noncomputable def unitController : TrilaterationController :=
  ⟨(0, 0), (1, 0), (0, 1), 32, -69, -69, -69, 1.8⟩

/-- Solver fixture for the C1 witness: always returns (0, 0, 0), which is a
global minimizer for the exact-geometry distances d1 = 0, d2 = 1, d3 = 1. -/
def constantSolver : (ℝ × ℝ × ℝ → ℝ × ℝ × ℝ) → (ℝ × ℝ × ℝ) → ℝ × ℝ × ℝ :=
  fun _ _ => (0, 0, 0)

/-- Witness for C1 on exact geometry: stations (0,0), (1,0), (0,1) with
distances 0, 1, 1 measured from the target (0,0). -/
theorem claim_C1_witness :
    initial_guess = ((0 : ℝ), (0 : ℝ), (0 : ℝ))
    ∧ (∀ q, specObjective unitController 0 1 1
          (constantSolver (equations unitController 0 1 1) initial_guess)
        ≤ specObjective unitController 0 1 1 q)
    ∧ trilaterate constantSolver unitController 0 1 1
      = ((constantSolver (equations unitController 0 1 1) initial_guess).1,
         (constantSolver (equations unitController 0 1 1) initial_guess).2.1) :=
  claim_C1 constantSolver unitController 0 1 1 (by
    intro q
    have h0 : sumsq (equations unitController 0 1 1)
        (constantSolver (equations unitController 0 1 1) initial_guess) = 0 := by
      norm_num [sumsq, equations, unitController, constantSolver, initial_guess]
    rw [h0, sumsq_equations_eq_specObjective]
    unfold specObjective
    positivity)

/-- Measurement uncertainty constant (src/filter.py line 4). -/
def UNCERTAINTY : ℝ := 17

/-- Modelled from the spec: the scalar state of `filterpy.kalman.KalmanFilter`
with dim_x = dim_z = 1, which is external library code not contained in this
repository.  Fields: state estimate x, state covariance P, process noise Q,
measurement noise R (transition and measurement matrices are the identity). -/
structure KalmanState where
  x : ℝ
  P : ℝ
  Q : ℝ
  R : ℝ

/-- The denominator of the Kalman gain, exactly P + R: no epsilon flooring is
applied anywhere. -/
def kalmanDenom (s : KalmanState) : ℝ := s.P + s.R

/-- Modelled from the spec: predict advances the covariance by the process
noise (identity transition, no control input): P := P + Q. -/
def KalmanState.predict (s : KalmanState) : KalmanState :=
  { s with P := s.P + s.Q }

/-- Modelled from the spec: update computes the gain K = P / (P + R), moves
the estimate by x := x + K (m - x), and shrinks the covariance by
P := (1 - K) P. -/
noncomputable def KalmanState.update (s : KalmanState) (m : ℝ) : KalmanState :=
  { s with
      x := s.x + s.P / kalmanDenom s * (m - s.x),
      P := (1 - s.P / kalmanDenom s) * s.P }

/-- Embedding of `initialize_kalman_filter` (src/filter.py lines 7-15):
x = 0, the library's identity covariance is scaled to P = 1000, R is set to
UNCERTAINTY = 17, and the library default leaves Q = 1. -/
noncomputable def init_kalman_filter : KalmanState :=
  ⟨0, 1000, 1, UNCERTAINTY⟩

/-- Embedding of `apply_kalman_filter` (src/filter.py lines 18-22): exactly
one predict, then one update with the new value; returns the filtered value
x together with the mutated filter state. -/
noncomputable def apply_kalman_filter (s : KalmanState) (m : ℝ) : ℝ × KalmanState :=
  ((s.predict.update m).x, s.predict.update m)

/-- Folding a list of measurements through the filter, oldest first. -/
noncomputable def runFilter : KalmanState → List ℝ → KalmanState
  | s, [] => s
  | s, m :: ms => runFilter (apply_kalman_filter s m).2 ms

/-- Claim C10: on the freshly constructed filter the first filtered value
after one sample m is (1001/1018) * m — predict raises P to 1001, the gain is
1001/1018 — and for m ≠ 0 it differs from the raw measurement and is strictly
closer to 0. -/
theorem claim_C10 (m : ℝ) (hm : m ≠ 0) :
    (apply_kalman_filter init_kalman_filter m).1 = 1001 / 1018 * m
    ∧ (apply_kalman_filter init_kalman_filter m).1 ≠ m
    ∧ |(apply_kalman_filter init_kalman_filter m).1| < |m| := by
  have hx : (apply_kalman_filter init_kalman_filter m).1 = 1001 / 1018 * m := by
    norm_num [apply_kalman_filter, init_kalman_filter, KalmanState.predict,
      KalmanState.update, kalmanDenom, UNCERTAINTY]
  refine ⟨hx, ?_, ?_⟩
  · rw [hx]
    intro h
    exact hm (by linarith)
  · rw [hx, abs_mul, abs_of_pos (show (0 : ℝ) < 1001 / 1018 by norm_num)]
    have habs : 0 < |m| := abs_pos.mpr hm
    linarith

/-- Witness for C10 at the concrete measurement m = 1. -/
theorem claim_C10_witness :
    (apply_kalman_filter init_kalman_filter 1).1 = 1001 / 1018 * 1
    ∧ (apply_kalman_filter init_kalman_filter 1).1 ≠ 1
    ∧ |(apply_kalman_filter init_kalman_filter 1).1| < |(1 : ℝ)| :=
  claim_C10 1 (by norm_num)

/-- Counterexample to claim C8: the gain's denominator is not floored to a
positive epsilon — at a state with P = 0 and R = 0 the update divides by
exactly 0. -/
theorem claim_C8_counterexample :
    kalmanDenom ⟨0, 0, 0, 0⟩ = 0 := by
  norm_num [kalmanDenom]

/-- One predict-update step preserves nonnegativity of P and the constants
Q = 1, R = 17. -/
lemma apply_kalman_filter_invariant (s : KalmanState) (m : ℝ)
    (hP : 0 ≤ s.P) (hQ : s.Q = 1) (hR : s.R = 17) :
    0 ≤ (apply_kalman_filter s m).2.P
    ∧ (apply_kalman_filter s m).2.Q = 1
    ∧ (apply_kalman_filter s m).2.R = 17 := by
  unfold apply_kalman_filter KalmanState.predict KalmanState.update kalmanDenom
  refine ⟨?_, hQ, hR⟩
  simp only [hQ, hR]
  have h1 : (0 : ℝ) < s.P + 1 := by linarith
  have h2 : (0 : ℝ) < s.P + 1 + 17 := by linarith
  have hK : (s.P + 1) / (s.P + 1 + 17) ≤ 1 := by
    rw [div_le_one h2]; linarith
  exact mul_nonneg (by linarith) (le_of_lt h1)

/-- The invariant holds along every measurement sequence fed to the filter as
constructed by src/filter.py. -/
lemma runFilter_invariant (ms : List ℝ) (s : KalmanState)
    (hP : 0 ≤ s.P) (hQ : s.Q = 1) (hR : s.R = 17) :
    0 ≤ (runFilter s ms).P ∧ (runFilter s ms).Q = 1 ∧ (runFilter s ms).R = 17 := by
  induction ms generalizing s with
  | nil => exact ⟨hP, hQ, hR⟩
  | cons m ms ih =>
      obtain ⟨hP', hQ', hR'⟩ := apply_kalman_filter_invariant s m hP hQ hR
      exact ih _ hP' hQ' hR'

/-- Claim C8 as amended: no epsilon flooring exists, but for the filter as
constructed in src/filter.py (R fixed at 17, P starting at 1000 and remaining
nonnegative through every predict-update step) the denominator P + R used by
the next update is always at least 17, so the gain never divides by zero. -/
theorem claim_C8_amended (ms : List ℝ) :
    (runFilter init_kalman_filter ms).R = 17
    ∧ 0 ≤ (runFilter init_kalman_filter ms).P
    ∧ 17 ≤ kalmanDenom (runFilter init_kalman_filter ms).predict
    ∧ kalmanDenom (runFilter init_kalman_filter ms).predict ≠ 0 := by
  obtain ⟨hP, hQ, hR⟩ := runFilter_invariant ms init_kalman_filter
    (by norm_num [init_kalman_filter]) (by norm_num [init_kalman_filter])
    (by norm_num [init_kalman_filter, UNCERTAINTY])
  have hden : 17 ≤ kalmanDenom (runFilter init_kalman_filter ms).predict := by
    unfold kalmanDenom KalmanState.predict
    simp only [hQ, hR]
    linarith
  exact ⟨hR, hP, hden, by intro h; rw [h] at hden; norm_num at hden⟩

/-- One stored message entry: the raw rssi and the filtered value recorded by
`on_message` (src/server.py lines 93-115).  The time and address fields play
no role in the claims and are omitted; the filtered value is held in Python as
a one-element numpy array and consumed via index 0. -/
structure Reading where
  rssi : ℝ
  filtered_rssi : ℝ

/-- Append to a deque with maxlen 10 (src/server.py lines 54-56): when the
deque is full the oldest (leftmost) element is evicted. -/
def dequeAppend (xs : List Reading) (r : Reading) : List Reading :=
  if xs.length < 10 then xs ++ [r] else xs.tail ++ [r]

/-- A deque append always leaves the appended entry as the newest element. -/
lemma dequeAppend_getLast? (xs : List Reading) (r : Reading) :
    (dequeAppend xs r).getLast? = some r := by
  unfold dequeAppend
  by_cases h : xs.length < 10
  · rw [if_pos h, List.getLast?_append_cons]; rfl
  · rw [if_neg h, List.getLast?_append_cons]; rfl

/-- The mutable module-level state of src/server.py: the three receiver
deques and the three Kalman filter instances. -/
structure ServerState where
  receiver_1 : List Reading
  receiver_2 : List Reading
  receiver_3 : List Reading
  kf1 : KalmanState
  kf2 : KalmanState
  kf3 : KalmanState

/-- The module state right after import: each deque is seeded with one test
sample (rssi -42, filtered_rssi [-42]) by the module-level test lines
(src/server.py lines 58-63), and the three filters are freshly constructed
(lines 66-68). -/
noncomputable def initialServerState : ServerState :=
  ⟨[⟨-42, -42⟩], [⟨-42, -42⟩], [⟨-42, -42⟩],
   init_kalman_filter, init_kalman_filter, init_kalman_filter⟩

/-- MQTT topics the message handler dispatches on. -/
inductive Topic where
  | receivers1
  | receivers2
  | receivers3
  | other

/-- Embedding of `on_message` (src/server.py lines 93-115): the receiver whose
topic matches gets exactly one filter pass via `apply_kalman_filter`, and the
entry appended to its deque stores the raw rssi together with the filtered
value; a message on an unknown topic is logged and dropped. -/
noncomputable def on_message (st : ServerState) (topic : Topic) (rssi : ℝ) :
    ServerState :=
  match topic with
  | .receivers1 =>
      { st with
          kf1 := (apply_kalman_filter st.kf1 rssi).2,
          receiver_1 := dequeAppend st.receiver_1
            ⟨rssi, (apply_kalman_filter st.kf1 rssi).1⟩ }
  | .receivers2 =>
      { st with
          kf2 := (apply_kalman_filter st.kf2 rssi).2,
          receiver_2 := dequeAppend st.receiver_2
            ⟨rssi, (apply_kalman_filter st.kf2 rssi).1⟩ }
  | .receivers3 =>
      { st with
          kf3 := (apply_kalman_filter st.kf3 rssi).2,
          receiver_3 := dequeAppend st.receiver_3
            ⟨rssi, (apply_kalman_filter st.kf3 rssi).1⟩ }
  | .other => st

/-- Failure of the position computation: scipy non-convergence or singular
geometry surfacing as a raised exception inside `get_position`. -/
inductive SolverFailure where
  | didNotConverge
deriving DecidableEq

/-- Outcome of one iteration of the processing loop: skipped for lack of
data, a position emitted to the display, or an uncaught exception that kills
the processing thread. -/
inductive TickResult where
  | skipped
  | emitted (pos : ℤ × ℤ)
  | crashed
deriving DecidableEq

/-- One iteration of `process_values` (src/server.py lines 155-183): if some
deque is empty the tick logs and skips; otherwise it reads the newest
filtered value of each deque (`receiver[-1]["filtered_rssi"][0]`) and calls
`get_position` — abstracted as the parameter `gp`, since the computation ends
in the external scipy solver — with no exception handler around it: a raised
solver failure propagates and terminates the thread (`crashed`), a successful
result is emitted to the display. -/
noncomputable def process_tick
    (gp : ℝ → ℝ → ℝ → Except SolverFailure (ℤ × ℤ))
    (st : ServerState) : TickResult :=
  match st.receiver_1.getLast?, st.receiver_2.getLast?, st.receiver_3.getLast? with
  | some e1, some e2, some e3 =>
      match gp e1.filtered_rssi e2.filtered_rssi e3.filtered_rssi with
      | .ok pos => .emitted pos
      | .error _ => .crashed
  | _, _, _ => .skipped

/-- Claim C6: every incoming sample for receiver 1 triggers exactly one
predict followed by one update on that receiver's filter, the update applies
the gain equations K = P/(P+R), x += K (m - x), P *= (1 - K), the stored
entry holds the updated filtered x next to the raw value, and a subsequent
tick feeds the position computation the filtered values — never the raw
RSSI.  (Stated over receiver 1's handler branch; the other two branches are
literally symmetric, and the last conjunct exercises all three.) -/
theorem claim_C6 (st : ServerState) (m : ℝ) :
    (on_message st .receivers1 m).kf1 = st.kf1.predict.update m
    ∧ st.kf1.predict.update m =
        { st.kf1.predict with
            x := st.kf1.predict.x
              + st.kf1.predict.P / (st.kf1.predict.P + st.kf1.predict.R)
                * (m - st.kf1.predict.x),
            P := (1 - st.kf1.predict.P / (st.kf1.predict.P + st.kf1.predict.R))
              * st.kf1.predict.P }
    ∧ (on_message st .receivers1 m).receiver_1.getLast?
        = some ⟨m, (st.kf1.predict.update m).x⟩
    ∧ (∀ gp m2 m3,
        process_tick gp
          (on_message (on_message (on_message st .receivers1 m) .receivers2 m2)
            .receivers3 m3)
        = match gp (st.kf1.predict.update m).x (st.kf2.predict.update m2).x
              (st.kf3.predict.update m3).x with
          | .ok pos => TickResult.emitted pos
          | .error _ => TickResult.crashed) := by
  refine ⟨rfl, rfl, ?_, ?_⟩
  · simp [on_message, dequeAppend_getLast?, apply_kalman_filter]
  · intro gp m2 m3
    simp [process_tick, on_message, dequeAppend_getLast?, apply_kalman_filter]

/-- Fixture: a position computation that always succeeds with grid cell (3, 4). -/
def demoSolver : ℝ → ℝ → ℝ → Except SolverFailure (ℤ × ℤ) :=
  fun _ _ _ => .ok (3, 4)

/-- Fixture: a position computation whose solver always fails. -/
def failSolver : ℝ → ℝ → ℝ → Except SolverFailure (ℤ × ℤ) :=
  fun _ _ _ => .error .didNotConverge

/-- Claim C2 is violated by the code as shipped: starting from the imported
module state — whose deques are pre-seeded with a test sample for every
receiver — and delivering messages only on receivers/1 and receivers/2,
receiver 3's deque still holds the seeded sample it never received from a
receiver, and the processing tick emits a position estimate anyway. -/
theorem claim_C2_bug :
    (on_message (on_message initialServerState .receivers1 (-50)) .receivers2 (-55)).receiver_3
      = [⟨-42, -42⟩]
    ∧ process_tick demoSolver
        (on_message (on_message initialServerState .receivers1 (-50)) .receivers2 (-55))
      = .emitted (3, 4) := by
  constructor
  · rfl
  · simp [process_tick, on_message, initialServerState, dequeAppend_getLast?,
      demoSolver, dequeAppend]

/-- Counterexample to claim C3: with the same state on which a successful
tick emits (3, 4), a tick whose solver call fails does not re-emit that
previous position — the uncaught exception kills the processing thread. -/
theorem claim_C3_counterexample :
    process_tick demoSolver initialServerState = .emitted (3, 4)
    ∧ process_tick failSolver initialServerState = .crashed
    ∧ process_tick failSolver initialServerState ≠ .emitted (3, 4) := by
  refine ⟨?_, ?_, ?_⟩
  · simp [process_tick, initialServerState, demoSolver]
  · simp [process_tick, initialServerState, failSolver]
  · simp [process_tick, initialServerState, failSolver]

/-- Claim C3 as amended: `process_values` installs no exception handler
around the solver call, so on a tick whose position computation raises,
nothing is emitted at all — in particular the previous estimate is not
re-emitted and no failure is logged by the loop — and the processing thread
terminates. -/
theorem claim_C3_amended (gp : ℝ → ℝ → ℝ → Except SolverFailure (ℤ × ℤ))
    (st : ServerState) (e1 e2 e3 : Reading) (err : SolverFailure)
    (h1 : st.receiver_1.getLast? = some e1)
    (h2 : st.receiver_2.getLast? = some e2)
    (h3 : st.receiver_3.getLast? = some e3)
    (hf : gp e1.filtered_rssi e2.filtered_rssi e3.filtered_rssi = .error err) :
    process_tick gp st = .crashed := by
  simp [process_tick, h1, h2, h3, hf]

/-- Witness for the amended C3 on the imported module state with the failing
solver fixture. -/
theorem claim_C3_witness :
    process_tick failSolver initialServerState = .crashed :=
  claim_C3_amended failSolver initialServerState ⟨-42, -42⟩ ⟨-42, -42⟩ ⟨-42, -42⟩
    .didNotConverge rfl rfl rfl rfl
